import Mathlib

/-!
# rknn_yolov5_demo (RV1106/RV1103) : the command-line driver `main.cc`

A shallow embedding of `examples/RV1106_RV1103/rknn_yolov5_demo/src/main.cc`.

* The accelerator runtime (`rknn_*`), the image codec (`stbi_load`,
  `stbir_resize_uint8`) and `post_process` are external to the file.  Their
  results are read from an environment `Env`; the calls the driver makes are
  recorded, in program order, in a trace of `Event`s.
* C `float` values are carried as rationals: the driver only copies them,
  multiplies one by 100 and divides two integers, and the statements below
  concern which operands are used, not rounding.
* C arrays are lists read with a zeroed default (the `memset` value);
  byte memories are functions from offsets to bytes.
* Where the C program leaves defined behaviour (a read past an array, a null
  pointer dereferenced, a copy past a block, an `int` overflow) the field
  `defined` of the outcome is false; the trace and the return value then
  record how the model continues and say nothing about the program.
-/

namespace Yolov5Demo

/-! ## Types of `rknn_api.h` and `postprocess.h` used by the driver -/

/-- The tensor layouts of `rknn_api.h` that the driver distinguishes. -/
inductive rknn_tensor_format where
  | RKNN_TENSOR_NCHW
  | RKNN_TENSOR_NHWC
  | RKNN_TENSOR_NC1HWC2
  | RKNN_TENSOR_UNDEFINED
  deriving DecidableEq, Repr

/-- The tensor element types of `rknn_api.h` that the driver touches. -/
inductive rknn_tensor_type where
  | RKNN_TENSOR_FLOAT32
  | RKNN_TENSOR_INT8
  | RKNN_TENSOR_UINT8
  deriving DecidableEq, Repr

open rknn_tensor_format rknn_tensor_type

/-- The fields of `rknn_tensor_attr` read or written by `main.cc`. -/
structure rknn_tensor_attr where
  index : Nat
  n_dims : Nat
  dims : List Nat
  fmt : rknn_tensor_format
  type : rknn_tensor_type
  zp : Int
  scale : ℚ
  w_stride : Nat
  size_with_stride : Nat

/-- An attribute block after `memset(…, 0, …)`. -/
def zero_attr : rknn_tensor_attr :=
  ⟨0, 0, [], RKNN_TENSOR_NCHW, RKNN_TENSOR_FLOAT32, 0, 0, 0, 0⟩

/-- The array read `attr->dims[k]`. -/
def rknn_tensor_attr.dim (a : rknn_tensor_attr) (k : Nat) : Nat := a.dims.getD k 0

/-- The value of the status macro `RKNN_SUCC` of `rknn_api.h`. -/
def RKNN_SUCC : Int := 0

/-- The rectangle `BOX_RECT` of `postprocess.h`. -/
structure BOX_RECT where
  left : Int
  right : Int
  top : Int
  bottom : Int

/-- One entry `detect_result_t` of `postprocess.h`. -/
structure detect_result_t where
  name : String
  box : BOX_RECT
  prop : ℚ

/-- The group `detect_result_group_t` filled by `post_process`; `results` is
the fixed-size array, indexed by position. -/
structure detect_result_group_t where
  id : Int
  count : Int
  results : Nat → detect_result_t

/-- The arguments of one `post_process` call, in the order of the call in
`main.cc`; the three buffers are the memory handles whose `virt_addr` is
passed. -/
structure PostArgs where
  input0 : Nat
  input1 : Nat
  input2 : Nat
  model_in_h : Int
  model_in_w : Int
  conf_threshold : ℚ
  nms_threshold : ℚ
  scale_w : ℚ
  scale_h : ℚ
  qnt_zps : List Int
  qnt_scales : List ℚ

/-! ## The image codec -/

/-- What the codec finds in an image file: width `x`, height `y` and the
number of channels stored in the file. -/
structure ImageFile where
  x : Nat
  y : Nat
  comp : Nat

/-- A heap block holding pixels: `capacity` bytes were allocated, and the
last writer stored `width * height * channels` interleaved bytes in it. -/
structure PixelBuffer where
  capacity : Nat
  width : Nat
  height : Nat
  channels : Nat
  deriving DecidableEq, Repr

/-- Bytes stored in the block by its last writer. -/
def PixelBuffer.stored (b : PixelBuffer) : Nat := b.width * b.height * b.channels

/-- Modelled from the spec: `stb_image.h` is not part of the driver file; the
image loader is a black box producing a pixel buffer of known
width/height/channel layout.  `stbi_load(filename, &x, &y, &comp, req_comp)`
writes the file's width, height and channel count to `x`, `y`, `comp` and
returns `x * y * req_comp` bytes (`comp` channels when `req_comp` is 0), or
NULL when the file cannot be decoded. -/
def stbi_load (files : String → Option ImageFile) (filename : String) (req_comp : Nat) :
    Option (PixelBuffer × Nat × Nat × Nat) :=
  match files filename with
  | none => none
  | some f =>
    let n := if req_comp = 0 then f.comp else req_comp
    some (⟨f.x * f.y * n, f.x, f.y, n⟩, f.x, f.y, f.comp)

/-- Modelled from the spec: `stb_image_resize.h` is not part of the driver
file.  `stbir_resize_uint8(in, in_w, in_h, 0, out, out_w, out_h, 0, n)` reads
`in_w * in_h * n` bytes, stores `out_w * out_h * n` bytes into `out` and
returns 1, or returns 0 when its scratch allocation fails. -/
def stbir_resize_uint8 (ok : Bool) (_input_pixels : PixelBuffer) (_input_w _input_h : Nat)
    (output_pixels : PixelBuffer) (output_w output_h num_channels : Nat) : Int × PixelBuffer :=
  if ok then (1, { output_pixels with width := output_w, height := output_h, channels := num_channels })
  else (0, output_pixels)

/-- Bytes `stbir_resize_uint8` reads from its input block. -/
def stbir_bytes_read (input_w input_h num_channels : Nat) : Nat :=
  input_w * input_h * num_channels

/-- The result of a successful `load_image`: the returned block and the two
out-parameters. -/
structure LoadedImage where
  image_data : PixelBuffer
  img_height : Nat
  img_width : Nat
  deriving DecidableEq, Repr

/-- The sizes `load_image` requires, from the switch on `input_attr->fmt`:
`(req_height, req_width, req_channel)`, or `none` for an unsupported layout. -/
def required_size (input_attr : rknn_tensor_attr) : Option (Nat × Nat × Nat) :=
  match input_attr.fmt with
  | RKNN_TENSOR_NHWC => some (input_attr.dim 1, input_attr.dim 2, input_attr.dim 3)
  | RKNN_TENSOR_NCHW => some (input_attr.dim 2, input_attr.dim 3, input_attr.dim 1)
  | _ => none

/-- The function `load_image` of `main.cc`.  `malloc_ok` and `resize_ok` say
whether `STBI_MALLOC` and the resizer's own allocation succeed. -/
def load_image (files : String → Option ImageFile) (malloc_ok resize_ok : Bool)
    (image_path : String) (input_attr : rknn_tensor_attr) : Option LoadedImage :=
  match required_size input_attr with
  | none => none
  | some (req_height, req_width, req_channel) =>
    match stbi_load files image_path req_channel with
    | none => none
    | some (image_data, img_width, img_height, channel) =>
      if img_width ≠ req_width ∨ img_height ≠ req_height then
        if !malloc_ok then none
        else
          let image_resized : PixelBuffer := ⟨req_width * req_height * req_channel, 0, 0, 0⟩
          let r := stbir_resize_uint8 resize_ok image_data img_width img_height
            image_resized req_width req_height channel
          if r.1 ≠ 1 then none
          else some ⟨r.2, img_height, img_width⟩
      else some ⟨image_data, img_height, img_width⟩

/-! ## `atoi` -/

/-- The digit loop of the C library's `atoi`. -/
def atoi_digits : List Char → Int → Int
  | [], acc => acc
  | c :: cs, acc =>
    if c.isDigit then atoi_digits cs (acc * 10 + ((c.toNat : Int) - 48)) else acc

/-- The C library's `isspace` in the "C" locale: the space and the
characters 9 to 13 (tab, line feed, vertical tab, form feed, carriage
return). -/
def isspace (c : Char) : Bool := decide (c.toNat = 32 ∨ (9 ≤ c.toNat ∧ c.toNat ≤ 13))

/-- The C library's `atoi`: leading white space, an optional sign, then
decimal digits; 0 when no digit follows.  The value is the mathematical one:
C defines the result only when it is representable as an `int`, see
`in_int_range`. -/
def atoi (s : String) : Int :=
  match s.toList.dropWhile isspace with
  | '-' :: rest => - atoi_digits rest 0
  | '+' :: rest => atoi_digits rest 0
  | cs => atoi_digits cs 0

/-- The largest value of a C `int` (32 bits). -/
def INT_MAX : Nat := 2147483647

/-- Whether a value is representable as a C `int`. -/
def in_int_range (v : Int) : Bool := decide (-2147483648 ≤ v ∧ v ≤ 2147483647)

/-! ## The environment and the trace -/

/-- The results of the external calls of one execution of the driver. -/
structure Env where
  /-- Status of `rknn_init` for a model path. -/
  rknn_init : String → Int
  /-- Status of the `RKNN_QUERY_SDK_VERSION` query. -/
  query_sdk_version : Int
  /-- Status of the `RKNN_QUERY_IN_OUT_NUM` query. -/
  query_in_out_num : Int
  /-- The field `io_num.n_input`. -/
  n_input : Nat
  /-- The field `io_num.n_output`. -/
  n_output : Nat
  /-- Status and filled attribute of `RKNN_QUERY_INPUT_ATTR` for index `i`. -/
  query_input_attr : Nat → Int × rknn_tensor_attr
  /-- Status and filled attribute of `RKNN_QUERY_NATIVE_NHWC_OUTPUT_ATTR`. -/
  query_output_attr : Nat → Int × rknn_tensor_attr
  /-- Status of the `RKNN_QUERY_CUSTOM_STRING` query. -/
  query_custom_string : Int
  /-- The image files the codec can decode. -/
  files : String → Option ImageFile
  /-- Whether `STBI_MALLOC` succeeds. -/
  malloc_ok : Bool
  /-- Whether the resizer's scratch allocation succeeds. -/
  resize_ok : Bool
  /-- The handle returned by the `k`-th `rknn_create_mem` call; 0 is the null
  pointer, any other handle a block of the requested size. -/
  rknn_create_mem : Nat → Nat
  /-- Status of `rknn_set_io_mem` for the input tensor. -/
  set_io_mem_input : Int
  /-- Status of `rknn_set_io_mem` for output tensor `i`. -/
  set_io_mem_output : Nat → Int
  /-- Status of the `i`-th `rknn_run` call. -/
  rknn_run : Nat → Int
  /-- Status and filled result group of `post_process`. -/
  post_process : PostArgs → Int × detect_result_group_t
  /-- The macro `BOX_THRESH` of `postprocess.h`. -/
  BOX_THRESH : ℚ
  /-- The macro `NMS_THRESH` of `postprocess.h`. -/
  NMS_THRESH : ℚ
  /-- The macro `OBJ_NUMB_MAX_SIZE` of `postprocess.h`: the length of the array
  `results` of a result group. -/
  OBJ_NUMB_MAX_SIZE : Nat
  /-- The largest length for which the variable-length arrays of `main`
  (`input_attrs`, `output_attrs`, `output_mems`) fit the stack. -/
  vla_limit : Nat

/-- One line written by the report `printf("%s @ (%d %d %d %d) %f\n", …)`. -/
structure ReportLine where
  name : String
  left : Int
  top : Int
  right : Int
  bottom : Int
  confidence : ℚ

/-- The scratch string written by `sprintf(text, "%s %.1f%%", name, prop * 100)`. -/
structure OverlayText where
  name : String
  percent : ℚ

/-- The observable steps of the driver, with the status each call returned. -/
inductive Event where
  | main_entry (argc : Nat)
  | rknn_init (ret : Int)
  | query_sdk_version (ret : Int)
  | query_in_out_num (ret : Int)
  | query_input_attr (i : Nat) (ret : Int)
  | query_output_attr (i : Nat) (ret : Int)
  | query_custom_string (ret : Int)
  | load_image (non_null : Bool)
  | create_mem (handle : Nat) (size : Nat)
  | copy_input (strided : Bool)
  | set_io_mem_input (handle : Nat) (ret : Int)
  | set_io_mem_output (handle : Nat) (i : Nat) (ret : Int)
  | rknn_run (i : Nat) (ret : Int)
  | post_process (args : PostArgs) (ret : Int)
  | report (line : ReportLine)
  | destroy_mem (handle : Nat)
  | rknn_destroy
  | free_input_data

/-- What `main` did, the value it returned, and whether the execution stayed
within defined behaviour. -/
structure Outcome where
  trace : List Event
  ret : Int
  defined : Bool

/-- A C `for` loop over the indices `is` whose body makes one call, recorded
as `ev i`, and returns from `main` when `bad i`: the events recorded and
whether the loop returned early. -/
def checked_loop (ev : Nat → Event) (bad : Nat → Bool) : List Nat → List Event × Bool
  | [] => ([], false)
  | i :: is =>
    if bad i then ([ev i], true)
    else ((ev i :: (checked_loop ev bad is).1), (checked_loop ev bad is).2)

/-- A C `for` loop whose body is `v.push_back(f i)`. -/
def push_back_loop {α : Type} (f : Nat → α) (is : List Nat) : List α :=
  is.foldl (fun v i => v ++ [f i]) []

/-- The body of the report loop for one result: the scratch text and the
line that is printed. -/
def report_body (det_result : detect_result_t) : OverlayText × ReportLine :=
  (⟨det_result.name, det_result.prop * 100⟩,
   ⟨det_result.name, det_result.box.left, det_result.box.top, det_result.box.right,
    det_result.box.bottom, det_result.prop⟩)

/-- The report loop `for (int i = 0; i < detect_result_group.count; i++)`:
the events printed and the final content of `text`. -/
def report_loop (group : detect_result_group_t) (is : List Nat) (text : Option OverlayText) :
    List Event × Option OverlayText :=
  is.foldl (fun st i =>
    let b := report_body (group.results i)
    (st.1 ++ [Event.report b.2], some b.1)) ([], text)

/-! ## Copying the image into the input tensor memory -/

/-- A byte memory: the byte stored at each offset. -/
abbrev Memory := Nat → Nat

/-- The C library's `memcpy(dst + d, src + s, n)`. -/
def memcpy (dst : Memory) (d : Nat) (src : Memory) (s n : Nat) : Memory :=
  fun k => if d ≤ k ∧ k < d + n then src (s + (k - d)) else dst k

/-- The loop `for (int h = 0; h < height; ++h)` of the strided branch, run
for the given number of rows on the state `(src_ptr, dst_ptr, memory)`. -/
def copy_rows (src : Memory) (src_wc_elems dst_wc_elems : Nat) :
    Nat → Nat × Nat × Memory → Nat × Nat × Memory
  | 0, st => st
  | h + 1, (src_ptr, dst_ptr, mem) =>
    copy_rows src src_wc_elems dst_wc_elems h
      (src_ptr + src_wc_elems, dst_ptr + dst_wc_elems, memcpy mem dst_ptr src src_ptr src_wc_elems)

/-- The `else` branch of the copy: one `memcpy` per row. -/
def strided_copy (width stride height channel : Nat) (src dst : Memory) : Memory :=
  let src_wc_elems := width * channel
  let dst_wc_elems := stride * channel
  (copy_rows src src_wc_elems dst_wc_elems height (0, 0, dst)).2.2

/-- The `then` branch of the copy: one `memcpy` of the whole image. -/
def flat_copy (width height channel : Nat) (src dst : Memory) : Memory :=
  memcpy dst 0 src 0 (width * height * channel)

/-- The block "Copy input data to input tensor memory" of `main`. -/
def copy_input_data (input_attr : rknn_tensor_attr) (input_data virt_addr : Memory) : Memory :=
  let width := input_attr.dim 2
  let stride := input_attr.w_stride
  if width = stride then flat_copy width (input_attr.dim 1) (input_attr.dim 3) input_data virt_addr
  else strided_copy width stride (input_attr.dim 1) (input_attr.dim 3) input_data virt_addr

/-! ## Defined behaviour -/

/-- A sufficient condition for `dump_tensor_attr` to stay inside its buffer
`char dims[128]` and inside `attr->dims`: at most nine dimensions, each
printed by `%d` in at most 11 characters and followed by at most 2. -/
def dump_tensor_attr_defined (attr : rknn_tensor_attr) : Bool := decide (attr.n_dims ≤ 9)

/-- Whether the dumps made by a query loop are defined: `dump_tensor_attr`
runs for every attribute whose query succeeded, that is for all `n` of them,
or for those before the failed one when the loop returned early after
recording `steps` queries. -/
def dumps_defined (attr : Nat → rknn_tensor_attr) (steps : Nat) (returned_early : Bool) : Bool :=
  (List.range (if returned_early then steps - 1 else steps)).all
    (fun i => dump_tensor_attr_defined (attr i))

/-- Whether a `load_image` call stays within defined behaviour.  When a
resize is needed, the `int` product `req_width * req_height * req_channel`
must not overflow and, when the allocation succeeded, `stbir_resize_uint8`
must read no more than the decoded block holds and write no more than was
allocated. -/
def load_image_defined (files : String → Option ImageFile) (malloc_ok : Bool)
    (image_path : String) (input_attr : rknn_tensor_attr) : Bool :=
  match required_size input_attr with
  | none => true
  | some (req_height, req_width, req_channel) =>
    match stbi_load files image_path req_channel with
    | none => true
    | some (image_data, img_width, img_height, channel) =>
      if img_width ≠ req_width ∨ img_height ≠ req_height then
        decide (req_width * req_height ≤ INT_MAX) &&
        decide (req_width * req_height * req_channel ≤ INT_MAX) &&
        (!malloc_ok ||
          (decide (stbir_bytes_read img_width img_height channel ≤ image_data.capacity) &&
           decide (req_width * req_height * channel ≤ req_width * req_height * req_channel)))
      else true

/-- Whether the block "Copy input data to input tensor memory" stays within
defined behaviour: the tensor memory is not null, the values fit an `int`,
and both branches read at most `input_data_size` bytes from `input_data` and
keep their writes and the pointer `dst_ptr` within the `size_with_stride`
bytes of the tensor memory. -/
def copy_input_defined (input_attr : rknn_tensor_attr) (input_mem input_data_size : Nat) : Bool :=
  let width := input_attr.dim 2
  let stride := input_attr.w_stride
  let height := input_attr.dim 1
  let channel := input_attr.dim 3
  decide (input_mem ≠ 0) && decide (width ≤ INT_MAX) && decide (stride ≤ INT_MAX) &&
  (if width = stride then
    decide (width * height * channel ≤ input_data_size) &&
    decide (width * height * channel ≤ input_attr.size_with_stride)
  else
    decide (height ≤ INT_MAX) && decide (channel ≤ INT_MAX) &&
    decide (width * channel ≤ INT_MAX) && decide (stride * channel ≤ INT_MAX) &&
    decide (height * (width * channel) ≤ input_data_size) &&
    decide (height * (stride * channel) ≤ input_attr.size_with_stride) &&
    decide (height = 0 ∨
      (height - 1) * (stride * channel) + width * channel ≤ input_attr.size_with_stride))

/-- Whether the length of a variable-length array of `main` is admissible:
positive and within the stack. -/
def vla_defined (env : Env) (n : Nat) : Bool := decide (1 ≤ n) && decide (n ≤ env.vla_limit)

/-- Whether the preparation and the call of `post_process` stay within
defined behaviour: the divisors of the scale factors are not zero, the `int`
counter of the `push_back` loop reaches `n_output`, and `output_mems[0]`,
`[1]` and `[2]`, which are dereferenced, exist and are not null. -/
def post_call_defined (env : Env) (img : LoadedImage) (output_mems : List Nat) : Bool :=
  decide (img.img_width ≠ 0) && decide (img.img_height ≠ 0) &&
  decide (env.n_output ≤ INT_MAX) &&
  decide (3 ≤ env.n_output) && decide (output_mems.getD 0 0 ≠ 0) &&
  decide (output_mems.getD 1 0 ≠ 0) && decide (output_mems.getD 2 0 ≠ 0)

/-- Whether the report loop stays within defined behaviour: `count` does not
exceed the length of `results`, and each `sprintf` fits `char text[256]`
(the name, a space, at most 48 characters for the `float`, a percent sign
and the terminator), for which a name of at most 200 bytes suffices. -/
def report_defined (env : Env) (group : detect_result_group_t) : Bool :=
  decide (group.count ≤ (env.OBJ_NUMB_MAX_SIZE : Int)) &&
  (List.range group.count.toNat).all (fun i => decide ((group.results i).name.utf8ByteSize ≤ 200))

/-! ## `main` -/

/-- The variables `(model_width, model_height)` as `main` assigns them. -/
def model_size (input_attr : rknn_tensor_attr) : Nat × Nat :=
  if input_attr.fmt = RKNN_TENSOR_NCHW then (input_attr.dim 2, input_attr.dim 3)
  else (input_attr.dim 1, input_attr.dim 2)

/-- The arguments `main` passes to `post_process`. -/
def post_args (env : Env) (input_attr : rknn_tensor_attr) (img : LoadedImage)
    (output_attrs : List rknn_tensor_attr) (output_mems : List Nat) : PostArgs :=
  let model_width := (model_size input_attr).1
  let model_height := (model_size input_attr).2
  let scale_w : ℚ := (model_width : ℚ) / (img.img_width : ℚ)
  let scale_h : ℚ := (model_height : ℚ) / (img.img_height : ℚ)
  let out_scales := push_back_loop (fun i => (output_attrs.getD i zero_attr).scale)
    (List.range env.n_output)
  let out_zps := push_back_loop (fun i => (output_attrs.getD i zero_attr).zp)
    (List.range env.n_output)
  ⟨output_mems.getD 0 0, output_mems.getD 1 0, output_mems.getD 2 0, 640, 640,
    env.BOX_THRESH, env.NMS_THRESH, scale_w, scale_h, out_zps, out_scales⟩

/-- The steps of `main` up to its end, from the steps `tr` made before
post-processing: the `post_process` call, the report and the clean-up. -/
def post_trace (env : Env) (tr : List Event) (input_attr : rknn_tensor_attr) (img : LoadedImage)
    (output_attrs : List rknn_tensor_attr) (input_mem : Nat) (output_mems : List Nat) :
    List Event :=
  let args := post_args env input_attr img output_attrs output_mems
  let r := env.post_process args
  let detect_result_group := r.2
  let rep := report_loop detect_result_group (List.range detect_result_group.count.toNat) none
  tr ++ [Event.post_process args r.1] ++ rep.1 ++ [Event.destroy_mem input_mem]
      ++ (List.range env.n_output).map (fun i => Event.destroy_mem (output_mems.getD i 0))
      ++ [Event.rknn_destroy, Event.free_input_data]

/-- The part of `main` after the inference loop: post-processing, the report
and the clean-up; `d` says whether the execution was defined so far. -/
def main_post (env : Env) (tr : List Event) (input_attr : rknn_tensor_attr) (img : LoadedImage)
    (output_attrs : List rknn_tensor_attr) (input_mem : Nat) (output_mems : List Nat)
    (d : Bool) : Outcome :=
  let args := post_args env input_attr img output_attrs output_mems
  ⟨post_trace env tr input_attr img output_attrs input_mem output_mems, 0,
    d && post_call_defined env img output_mems &&
      report_defined env (env.post_process args).2⟩

/-- The variable `loop_count` of `main`: 1, or `atoi(argv[3])` when a fourth
argument is given. -/
def loop_count (argv : List String) : Int :=
  if argv.length > 3 then atoi (argv.getD 3 "") else 1

/-- The function `main` of `main.cc`. -/
def main (env : Env) (argv : List String) : Outcome :=
  let argc := argv.length
  let t0 := [Event.main_entry argc]
  if argc < 3 then ⟨t0, -1, decide (1 ≤ argc)⟩ else
  let model_path := argv.getD 1 ""
  let input_path := argv.getD 2 ""
  let d0 := decide (argc ≤ 3) || in_int_range (atoi (argv.getD 3 ""))
  let t1 := t0 ++ [Event.rknn_init (env.rknn_init model_path)]
  if env.rknn_init model_path < 0 then ⟨t1, -1, d0⟩ else
  let t2 := t1 ++ [Event.query_sdk_version env.query_sdk_version]
  if env.query_sdk_version ≠ RKNN_SUCC then ⟨t2, -1, d0⟩ else
  let t3 := t2 ++ [Event.query_in_out_num env.query_in_out_num]
  if env.query_in_out_num ≠ RKNN_SUCC then ⟨t3, -1, d0⟩ else
  let q_in := checked_loop (fun i => Event.query_input_attr i (env.query_input_attr i).1)
    (fun i => decide ((env.query_input_attr i).1 < 0)) (List.range env.n_input)
  let input_attrs := push_back_loop (fun i => (env.query_input_attr i).2) (List.range env.n_input)
  let t4 := t3 ++ q_in.1
  let d1 := d0 && vla_defined env env.n_input &&
    dumps_defined (fun i => (env.query_input_attr i).2) q_in.1.length q_in.2
  if q_in.2 then ⟨t4, -1, d1⟩ else
  let q_out := checked_loop (fun i => Event.query_output_attr i (env.query_output_attr i).1)
    (fun i => decide ((env.query_output_attr i).1 ≠ RKNN_SUCC)) (List.range env.n_output)
  let output_attrs := push_back_loop (fun i => (env.query_output_attr i).2)
    (List.range env.n_output)
  let t5 := t4 ++ q_out.1
  let d2 := d1 && vla_defined env env.n_output &&
    dumps_defined (fun i => (env.query_output_attr i).2) q_out.1.length q_out.2
  if q_out.2 then ⟨t5, -1, d2⟩ else
  let t6 := t5 ++ [Event.query_custom_string env.query_custom_string]
  if env.query_custom_string ≠ RKNN_SUCC then ⟨t6, -1, d2⟩ else
  let d3 := d2 && load_image_defined env.files env.malloc_ok input_path
    (input_attrs.getD 0 zero_attr)
  match load_image env.files env.malloc_ok env.resize_ok input_path
      (input_attrs.getD 0 zero_attr) with
  | none => ⟨t6 ++ [Event.load_image false], -1, d3⟩
  | some img =>
    let t7 := t6 ++ [Event.load_image true]
    let input_attr : rknn_tensor_attr :=
      { input_attrs.getD 0 zero_attr with type := RKNN_TENSOR_UINT8, fmt := RKNN_TENSOR_NHWC }
    let input_mem := env.rknn_create_mem 0
    let t8 := t7 ++ [Event.create_mem input_mem input_attr.size_with_stride,
      Event.copy_input (decide (input_attr.dim 2 ≠ input_attr.w_stride))]
    let d4 := d3 && copy_input_defined input_attr input_mem img.image_data.capacity
    let output_mems := push_back_loop (fun i => env.rknn_create_mem (i + 1))
      (List.range env.n_output)
    let t9 := t8 ++ (List.range env.n_output).map (fun i =>
      Event.create_mem (env.rknn_create_mem (i + 1)) (output_attrs.getD i zero_attr).size_with_stride)
    let t10 := t9 ++ [Event.set_io_mem_input input_mem env.set_io_mem_input]
    if env.set_io_mem_input < 0 then ⟨t10, -1, d4⟩ else
    let s_out := checked_loop
      (fun i => Event.set_io_mem_output (output_mems.getD i 0) i (env.set_io_mem_output i))
      (fun i => decide (env.set_io_mem_output i < 0)) (List.range env.n_output)
    let t11 := t10 ++ s_out.1
    if s_out.2 then ⟨t11, -1, d4⟩ else
    let runs := checked_loop (fun i => Event.rknn_run i (env.rknn_run i))
      (fun i => decide (env.rknn_run i < 0)) (List.range (loop_count argv).toNat)
    let t12 := t11 ++ runs.1
    if runs.2 then ⟨t12, -1, d4⟩ else
    main_post env t12 input_attr img output_attrs input_mem output_mems d4

/-! ## Reading a trace -/

/-- The arguments of a `post_process` event. -/
def Event.post_args : Event → Option PostArgs
  | Event.post_process args _ => some args
  | _ => none

/-- The arguments of the first `post_process` call of a trace, if any. -/
def post_process_call (tr : List Event) : Option PostArgs := tr.findSome? Event.post_args

/-- The line of a report event. -/
def Event.line : Event → Option ReportLine
  | Event.report l => some l
  | _ => none

/-- The report lines of a trace, in order. -/
def report_lines (tr : List Event) : List ReportLine := tr.filterMap Event.line

/-- Whether an event is an `rknn_run` call that returned success. -/
def Event.is_successful_run : Event → Bool
  | Event.rknn_run _ ret => decide (0 ≤ ret)
  | _ => false

/-- Whether an event is a `post_process` call. -/
def Event.is_post_process : Event → Bool
  | Event.post_process _ _ => true
  | _ => false

/-- Whether the step is one of the listed failures: fewer than three
arguments; a negative status of `rknn_init`, of an input-attribute query, of
`rknn_set_io_mem` or of `rknn_run`; a status other than `RKNN_SUCC` of the
other queries; a null image. -/
def Event.failed : Event → Bool
  | Event.main_entry argc => decide (argc < 3)
  | Event.rknn_init ret => decide (ret < 0)
  | Event.query_sdk_version ret => decide (ret ≠ RKNN_SUCC)
  | Event.query_in_out_num ret => decide (ret ≠ RKNN_SUCC)
  | Event.query_input_attr _ ret => decide (ret < 0)
  | Event.query_output_attr _ ret => decide (ret ≠ RKNN_SUCC)
  | Event.query_custom_string ret => decide (ret ≠ RKNN_SUCC)
  | Event.load_image non_null => !non_null
  | Event.set_io_mem_input _ ret => decide (ret < 0)
  | Event.set_io_mem_output _ _ ret => decide (ret < 0)
  | Event.rknn_run _ ret => decide (ret < 0)
  | _ => false

/-! ## Concrete executions -/

/-- A 640x640 NHWC input attribute. -/
def demo_input_attr : rknn_tensor_attr :=
  ⟨0, 4, [1, 640, 640, 3], RKNN_TENSOR_NHWC, RKNN_TENSOR_INT8, -128, 1 / 255, 640, 1228800⟩

/-- The attribute of output tensor `i` of the demo model. -/
def demo_output_attr (i : Nat) : rknn_tensor_attr :=
  ⟨i, 4, [1, 80 / 2 ^ i, 80 / 2 ^ i, 255], RKNN_TENSOR_NHWC, RKNN_TENSOR_INT8, (i : Int) - 116,
    1 / ((i : ℚ) + 2), 80 / 2 ^ i, 0⟩

/-- The result group returned in the demo execution: two detections. -/
def demo_group : detect_result_group_t :=
  ⟨0, 2, fun i => match i with
    | 0 => ⟨"person", ⟨10, 30, 20, 40⟩, 1 / 2⟩
    | _ => ⟨"bus", ⟨11, 31, 21, 41⟩, 1 / 3⟩⟩

/-- An execution in which every call succeeds: a 640x640 model with three
outputs and a 1280x960 three-channel image. -/
def demo_env : Env where
  rknn_init := fun _ => 0
  query_sdk_version := 0
  query_in_out_num := 0
  n_input := 1
  n_output := 3
  query_input_attr := fun _ => (0, demo_input_attr)
  query_output_attr := fun i => (0, demo_output_attr i)
  query_custom_string := 0
  files := fun _ => some ⟨1280, 960, 3⟩
  malloc_ok := true
  resize_ok := true
  rknn_create_mem := fun k => 100 + k
  set_io_mem_input := 0
  set_io_mem_output := fun _ => 0
  rknn_run := fun _ => 0
  post_process := fun _ => (0, demo_group)
  BOX_THRESH := 1 / 4
  NMS_THRESH := 9 / 20
  OBJ_NUMB_MAX_SIZE := 64
  vla_limit := 1024

/-- The command line `demo model.rknn bus.jpg`. -/
def demo_argv : List String := ["rknn_yolov5_demo", "model.rknn", "bus.jpg"]

/-! ## Predicates on executions -/

/-- The part of the program a step belongs to: 0 for the set-up (arguments,
initialisation, queries, image loading, memory creation and binding), 1 for
the inference loop, 2 for post-processing, the report and the clean-up. -/
def Event.phase : Event → Nat
  | Event.rknn_run _ _ => 1
  | Event.post_process _ _ => 2
  | Event.report _ => 2
  | Event.destroy_mem _ => 2
  | Event.rknn_destroy => 2
  | Event.free_input_data => 2
  | _ => 0

/-- Every step of the trace succeeded and lies in phase `k` or earlier. -/
def Pre (k : Nat) (tr : List Event) : Prop := ∀ x ∈ tr, x.failed = false ∧ x.phase ≤ k

/-- The trace ends with a failed step, the first failure, and no step of a
later phase than the failed one was performed. -/
def Aborted (tr : List Event) : Prop :=
  ∃ pre e, tr = pre ++ [e] ∧ e.failed = true ∧ e.phase ≤ 1 ∧ Pre e.phase pre

/-- The element `input_attrs[0]` as filled by the queries. -/
def input_attr0 (env : Env) : rknn_tensor_attr :=
  (push_back_loop (fun i => (env.query_input_attr i).2) (List.range env.n_input)).getD 0 zero_attr

/-- The element `input_attrs[0]` after `main` has set its type and layout. -/
def input_attr0_set (env : Env) : rknn_tensor_attr :=
  { input_attr0 env with type := RKNN_TENSOR_UINT8, fmt := RKNN_TENSOR_NHWC }

/-- None of the listed failures occurs in the execution. -/
def no_failure (env : Env) (argv : List String) : Prop :=
  ¬ argv.length < 3 ∧
  ¬ env.rknn_init (argv.getD 1 "") < 0 ∧
  env.query_sdk_version = RKNN_SUCC ∧
  env.query_in_out_num = RKNN_SUCC ∧
  (∀ i, i < env.n_input → ¬ (env.query_input_attr i).1 < 0) ∧
  (∀ i, i < env.n_output → (env.query_output_attr i).1 = RKNN_SUCC) ∧
  env.query_custom_string = RKNN_SUCC ∧
  load_image env.files env.malloc_ok env.resize_ok (argv.getD 2 "") (input_attr0 env) ≠ none ∧
  ¬ env.set_io_mem_input < 0 ∧
  (∀ i, i < env.n_output → ¬ env.set_io_mem_output i < 0) ∧
  (∀ i : Nat, (i : Int) < loop_count argv → ¬ env.rknn_run i < 0)

/-- The steps `main` has performed when it reaches post-processing. -/
def steps_before_post (env : Env) (argv : List String) : List Event :=
  [Event.main_entry argv.length, Event.rknn_init (env.rknn_init (argv.getD 1 "")),
    Event.query_sdk_version env.query_sdk_version, Event.query_in_out_num env.query_in_out_num]
  ++ (List.range env.n_input).map (fun i => Event.query_input_attr i (env.query_input_attr i).1)
  ++ (List.range env.n_output).map (fun i => Event.query_output_attr i (env.query_output_attr i).1)
  ++ [Event.query_custom_string env.query_custom_string, Event.load_image true,
      Event.create_mem (env.rknn_create_mem 0) (input_attr0_set env).size_with_stride,
      Event.copy_input (decide ((input_attr0_set env).dim 2 ≠ (input_attr0_set env).w_stride))]
  ++ (List.range env.n_output).map (fun i =>
      Event.create_mem (env.rknn_create_mem (i + 1)) (env.query_output_attr i).2.size_with_stride)
  ++ [Event.set_io_mem_input (env.rknn_create_mem 0) env.set_io_mem_input]
  ++ (List.range env.n_output).map (fun i =>
      Event.set_io_mem_output (env.rknn_create_mem (i + 1)) i (env.set_io_mem_output i))
  ++ (List.range (loop_count argv).toNat).map (fun i => Event.rknn_run i (env.rknn_run i))

/-- The status returned by the first `post_process` call of a trace. -/
def post_process_status (tr : List Event) : Option Int :=
  tr.findSome? (fun e => match e with
    | Event.post_process _ ret => some ret
    | _ => none)

/-- A 480-row, 640-column NHWC input attribute (height 480, width 640). -/
def wide_input_attr : rknn_tensor_attr :=
  ⟨0, 4, [1, 480, 640, 3], RKNN_TENSOR_NHWC, RKNN_TENSOR_INT8, -128, 1 / 255, 640, 921600⟩

/-- The demo execution with the 480x640 model. -/
def wide_env : Env := { demo_env with query_input_attr := fun _ => (0, wide_input_attr) }

/-- A 320x320 NHWC input attribute. -/
def small_input_attr : rknn_tensor_attr :=
  ⟨0, 4, [1, 320, 320, 3], RKNN_TENSOR_NHWC, RKNN_TENSOR_INT8, -128, 1 / 255, 320, 307200⟩

/-- The demo execution with the 320x320 model. -/
def small_env : Env := { demo_env with query_input_attr := fun _ => (0, small_input_attr) }

/-- The demo execution in which `post_process` returns the status -1. -/
def failing_post_env : Env := { demo_env with post_process := fun _ => (-1, demo_group) }

/-- The demo execution with an image that already has the model's size. -/
def same_size_env : Env := { demo_env with files := fun _ => some ⟨640, 640, 3⟩ }

/-- A file system whose images are 1280x960 with four channels (RGBA). -/
def rgba_files : String → Option ImageFile := fun _ => some ⟨1280, 960, 4⟩

/-- The command line `demo model.rknn bus.jpg <loop_count>`. -/
def demo_argv_loop (loops : String) : List String := demo_argv ++ [loops]

/-! ## Lemmas on the loops -/

theorem push_back_loop_eq_map {α : Type} (f : Nat → α) (is : List Nat) :
    push_back_loop f is = is.map f := by
  unfold push_back_loop
  have h : ∀ (init : List α), is.foldl (fun v i => v ++ [f i]) init = init ++ is.map f := by
    induction is with
    | nil => intro init; simp
    | cons a t ih => intro init; simp [ih]
  simpa using h []

theorem report_loop_fst (g : detect_result_group_t) (is : List Nat) (t : Option OverlayText) :
    (report_loop g is t).1 = is.map (fun i => Event.report (report_body (g.results i)).2) := by
  unfold report_loop
  have h : ∀ (init : List Event × Option OverlayText),
      (is.foldl (fun st i => (st.1 ++ [Event.report (report_body (g.results i)).2],
        some (report_body (g.results i)).1)) init).1
      = init.1 ++ is.map (fun i => Event.report (report_body (g.results i)).2) := by
    induction is with
    | nil => intro init; simp
    | cons a t ih => intro init; simp [ih]
  simpa using h ([], t)

theorem checked_loop_good (ev : Nat → Event) (bad : Nat → Bool) (is : List Nat)
    (h : ∀ i ∈ is, bad i = false) : checked_loop ev bad is = (is.map ev, false) := by
  induction is with
  | nil => rfl
  | cons a t ih =>
    have ha : bad a = false := h a (by simp)
    have ht := ih (fun i hi => h i (by simp [hi]))
    simp [checked_loop, ha, ht]

theorem pre_nil (k : Nat) : Pre k [] := by
  intro x hx; simp at hx

theorem pre_append {k : Nat} {a b : List Event} (ha : Pre k a) (hb : Pre k b) : Pre k (a ++ b) := by
  intro x hx
  rcases List.mem_append.1 hx with h | h
  · exact ha x h
  · exact hb x h

theorem pre_mono {j k : Nat} (hjk : j ≤ k) {a : List Event} (ha : Pre j a) : Pre k a :=
  fun x hx => ⟨(ha x hx).1, le_trans (ha x hx).2 hjk⟩

theorem pre_map {k : Nat} (ev : Nat → Event) (is : List Nat)
    (h : ∀ i ∈ is, (ev i).failed = false ∧ (ev i).phase ≤ k) : Pre k (is.map ev) := by
  intro x hx
  rcases List.mem_map.1 hx with ⟨i, hi, rfl⟩
  exact h i hi

theorem aborted_append {a b : List Event} (ha : Pre 0 a) (hb : Aborted b) : Aborted (a ++ b) := by
  rcases hb with ⟨pre, e, rfl, hf, hp, hpre⟩
  refine ⟨a ++ pre, e, by simp, hf, hp, pre_append (pre_mono (Nat.zero_le _) ha) hpre⟩

theorem aborted_snoc {a : List Event} {e : Event} (ha : Pre 0 a) (hf : e.failed = true)
    (hp : e.phase ≤ 1) : Aborted (a ++ [e]) :=
  ⟨a, e, rfl, hf, hp, pre_mono (Nat.zero_le _) ha⟩

theorem checked_loop_bad (ev : Nat → Event) (bad : Nat → Bool) (is : List Nat) (p : Nat)
    (hf : ∀ i, (ev i).failed = bad i) (hp : ∀ i, (ev i).phase = p) (hp1 : p ≤ 1)
    (h : ∃ i ∈ is, bad i = true) :
    (checked_loop ev bad is).2 = true ∧ Aborted (checked_loop ev bad is).1 := by
  induction is with
  | nil => simp at h
  | cons a t ih =>
    by_cases ha : bad a = true
    · simp only [checked_loop, ha, if_true, true_and]
      exact ⟨[], ev a, rfl, by rw [hf, ha], by rw [hp]; exact hp1, pre_nil _⟩
    · have ha' : bad a = false := by simpa using ha
      have ht : ∃ i ∈ t, bad i = true := by
        rcases h with ⟨i, hi, hb⟩
        rcases List.mem_cons.1 hi with rfl | hi'
        · exact absurd hb ha
        · exact ⟨i, hi', hb⟩
      rcases ih ht with ⟨h2, pre, e, he, hfe, hpe, hpre⟩
      simp only [checked_loop, ha', Bool.false_eq_true, if_false]
      refine ⟨h2, ev a :: pre, e, by simp [he], hfe, hpe, ?_⟩
      intro x hx
      rcases List.mem_cons.1 hx with rfl | hx'
      · refine ⟨by rw [hf, ha'], ?_⟩
        have hep : e.phase = p := by
          have hmem : e ∈ (checked_loop ev bad t).1 := by rw [he]; simp
          clear hpre hx hfe hpe he h2 ih ht h ha ha'
          induction t with
          | nil => simp [checked_loop] at hmem
          | cons b u ihu =>
            simp only [checked_loop] at hmem
            split at hmem
            · simp at hmem; rw [hmem]; exact hp b
            · simp at hmem
              rcases hmem with rfl | hm
              · exact hp b
              · exact ihu hm
        rw [hp, hep]
      · exact hpre x hx'

theorem getD_map_range {α : Type} (f : Nat → α) (n i : Nat) (d : α) (h : i < n) :
    ((List.range n).map f).getD i d = f i := by
  simp [List.getD_eq_getElem?_getD, h]

theorem map_getD_map_range {α β : Type} (f : Nat → α) (g : Nat → α → β) (n : Nat) (d : α) :
    (List.range n).map (fun i => g i (((List.range n).map f).getD i d))
      = (List.range n).map (fun i => g i (f i)) := by
  apply List.map_congr_left
  intro i hi
  rw [getD_map_range f n i d (List.mem_range.1 hi)]

theorem main_of_no_failure (env : Env) (argv : List String) (h : no_failure env argv) :
    ∃ img, load_image env.files env.malloc_ok env.resize_ok (argv.getD 2 "") (input_attr0 env)
        = some img ∧
      (main env argv).trace = post_trace env (steps_before_post env argv) (input_attr0_set env)
        img ((List.range env.n_output).map (fun i => (env.query_output_attr i).2))
        (env.rknn_create_mem 0)
        ((List.range env.n_output).map (fun i => env.rknn_create_mem (i + 1))) ∧
      (main env argv).ret = 0 := by
  obtain ⟨h1, h2, h3, h4, h5, h6, h7, h8, h9, h10, h11⟩ := h
  obtain ⟨img, himg⟩ := Option.ne_none_iff_exists'.1 h8
  refine ⟨img, himg, ?_⟩
  have e1 := checked_loop_good (fun i => Event.query_input_attr i (env.query_input_attr i).1)
    (fun i => decide ((env.query_input_attr i).1 < 0)) (List.range env.n_input)
    (fun i hi => by simpa using h5 i (List.mem_range.1 hi))
  have e2 := checked_loop_good (fun i => Event.query_output_attr i (env.query_output_attr i).1)
    (fun i => decide ((env.query_output_attr i).1 ≠ RKNN_SUCC)) (List.range env.n_output)
    (fun i hi => by simpa using h6 i (List.mem_range.1 hi))
  have e3 := checked_loop_good (fun i => Event.rknn_run i (env.rknn_run i))
    (fun i => decide (env.rknn_run i < 0)) (List.range (loop_count argv).toNat)
    (fun i hi => by
      have := List.mem_range.1 hi
      have := h11 i (by omega)
      simpa using this)
  have e4 := fun (ms : List Nat) => checked_loop_good
    (fun i => Event.set_io_mem_output (ms.getD i 0) i (env.set_io_mem_output i))
    (fun i => decide (env.set_io_mem_output i < 0)) (List.range env.n_output)
    (fun i hi => by simpa using h10 i (List.mem_range.1 hi))
  have himg2 := himg
  simp only [input_attr0, push_back_loop_eq_map] at himg2
  simp only [main, main_post, h1, h2, h3, h4, h7, h9, e1, e2, e3, e4, himg2,
    push_back_loop_eq_map, if_false, ne_eq, not_true_eq_false, Bool.false_eq_true, and_true,
    steps_before_post, input_attr0_set, input_attr0, push_back_loop_eq_map,
    map_getD_map_range (fun i => (env.query_output_attr i).2)
      (fun i a => Event.create_mem (env.rknn_create_mem (i + 1)) a.size_with_stride),
    map_getD_map_range (fun i => env.rknn_create_mem (i + 1))
      (fun i a => Event.set_io_mem_output a i (env.set_io_mem_output i)),
    List.append_assoc, List.cons_append, List.nil_append, List.singleton_append]

theorem pre_snoc {a : List Event} {e : Event} (ha : Pre 0 a) (hf : e.failed = false)
    (hp : e.phase = 0) : Pre 0 (a ++ [e]) := by
  intro x hx
  rcases List.mem_append.1 hx with h | h
  · exact ha x h
  · have hxe : x = e := by simpa using h
    subst hxe
    exact ⟨hf, by rw [hp]⟩

theorem main_of_failure (env : Env) (argv : List String) (h : ¬ no_failure env argv) :
    (main env argv).ret = -1 ∧ Aborted (main env argv).trace := by
  by_cases h1 : argv.length < 3
  · simp only [main, if_pos h1, true_and]
    exact ⟨[], _, rfl, by simp [Event.failed, h1], by simp [Event.phase], pre_nil _⟩
  have p0 : Pre 0 [Event.main_entry argv.length] := by
    simpa using pre_snoc (pre_nil 0) (e := Event.main_entry argv.length)
      (by simp [Event.failed, h1]) rfl
  by_cases h2 : env.rknn_init (argv.getD 1 "") < 0
  · simp only [main, if_neg h1, if_pos h2, if_true, if_false, true_and]
    exact (aborted_snoc p0 (by simpa [Event.failed] using h2) (by simp [Event.phase]))
  have p1 := pre_snoc p0 (e := Event.rknn_init (env.rknn_init (argv.getD 1 "")))
    (by simpa [Event.failed] using h2) rfl
  by_cases h3 : env.query_sdk_version = RKNN_SUCC
  swap
  · simp only [main, if_neg h1, if_neg h2, if_pos h3, if_true, if_false, ne_eq, not_false_eq_true, true_and]
    exact (aborted_snoc p1 (by simp [Event.failed, h3]) (by simp [Event.phase]))
  have p2 := pre_snoc p1 (e := Event.query_sdk_version env.query_sdk_version)
    (by simp [Event.failed, h3]) rfl
  by_cases h4 : env.query_in_out_num = RKNN_SUCC
  swap
  · simp only [main, if_neg h1, if_neg h2, if_neg (not_not.2 h3), if_pos h4, if_true, if_false, ne_eq, not_false_eq_true,
      not_true_eq_false, true_and]
    exact (aborted_snoc p2 (by simp [Event.failed, h4]) (by simp [Event.phase]))
  have p3 := pre_snoc p2 (e := Event.query_in_out_num env.query_in_out_num)
    (by simp [Event.failed, h4]) rfl
  by_cases h5 : ∀ i, i < env.n_input → ¬ (env.query_input_attr i).1 < 0
  swap
  · have hb := checked_loop_bad (fun i => Event.query_input_attr i (env.query_input_attr i).1)
      (fun i => decide ((env.query_input_attr i).1 < 0)) (List.range env.n_input) 0
      (fun i => by simp [Event.failed]) (fun i => rfl) (by omega)
      (by
        push_neg at h5
        rcases h5 with ⟨i, hi, hlt⟩
        exact ⟨i, List.mem_range.2 hi, by simpa using hlt⟩)
    simp only [main, if_neg h1, if_neg h2, if_neg (not_not.2 h3), if_neg (not_not.2 h4), hb.1, if_true, if_false, ne_eq, not_false_eq_true,
      not_true_eq_false, true_and]
    exact (aborted_append p3 hb.2)
  have e1 := checked_loop_good (fun i => Event.query_input_attr i (env.query_input_attr i).1)
    (fun i => decide ((env.query_input_attr i).1 < 0)) (List.range env.n_input)
    (fun i hi => by simpa using h5 i (List.mem_range.1 hi))
  have p4 := pre_append p3 (pre_map (k := 0)
    (fun i => Event.query_input_attr i (env.query_input_attr i).1) (List.range env.n_input)
    (fun i hi => ⟨by simpa [Event.failed] using h5 i (List.mem_range.1 hi), by simp [Event.phase]⟩))
  by_cases h6 : ∀ i, i < env.n_output → (env.query_output_attr i).1 = RKNN_SUCC
  swap
  · have hb := checked_loop_bad (fun i => Event.query_output_attr i (env.query_output_attr i).1)
      (fun i => decide ((env.query_output_attr i).1 ≠ RKNN_SUCC)) (List.range env.n_output) 0
      (fun i => by simp [Event.failed]) (fun i => rfl) (by omega)
      (by
        push_neg at h6
        rcases h6 with ⟨i, hi, hlt⟩
        exact ⟨i, List.mem_range.2 hi, by simpa using hlt⟩)
    simp only [main, if_neg h1, if_neg h2, if_neg (not_not.2 h3), if_neg (not_not.2 h4), e1, hb.1, if_true, if_false, ne_eq, not_false_eq_true,
      not_true_eq_false, Bool.false_eq_true, true_and]
    exact (aborted_append p4 hb.2)
  have e2 := checked_loop_good (fun i => Event.query_output_attr i (env.query_output_attr i).1)
    (fun i => decide ((env.query_output_attr i).1 ≠ RKNN_SUCC)) (List.range env.n_output)
    (fun i hi => by simpa using h6 i (List.mem_range.1 hi))
  have p5 := pre_append p4 (pre_map (k := 0)
    (fun i => Event.query_output_attr i (env.query_output_attr i).1) (List.range env.n_output)
    (fun i hi => ⟨by simpa [Event.failed] using h6 i (List.mem_range.1 hi), by simp [Event.phase]⟩))
  by_cases h7 : env.query_custom_string = RKNN_SUCC
  swap
  · simp only [main, if_neg h1, if_neg h2, if_neg (not_not.2 h3), if_neg (not_not.2 h4), e1, e2, if_pos h7, if_true, if_false, ne_eq, not_false_eq_true,
      not_true_eq_false, Bool.false_eq_true, true_and]
    exact (aborted_snoc p5 (by simp [Event.failed, h7]) (by simp [Event.phase]))
  have p6 := pre_snoc p5 (e := Event.query_custom_string env.query_custom_string)
    (by simp [Event.failed, h7]) rfl
  cases himg : load_image env.files env.malloc_ok env.resize_ok (argv.getD 2 "") (input_attr0 env) with
  | none =>
    have himg2 := himg
    simp only [input_attr0] at himg2
    simp only [main, if_neg h1, if_neg h2, if_neg (not_not.2 h3), if_neg (not_not.2 h4), e1, e2, if_neg (not_not.2 h7), himg2, if_true, if_false, ne_eq,
      not_false_eq_true, not_true_eq_false, Bool.false_eq_true, true_and]
    exact (aborted_snoc p6 (by simp [Event.failed]) (by simp [Event.phase]))
  | some img =>
    have himg2 := himg
    simp only [input_attr0] at himg2
    have p7 := pre_snoc p6 (e := Event.load_image true) (by simp [Event.failed]) rfl
    have p8 := pre_append p7 (b := [Event.create_mem (env.rknn_create_mem 0)
        (input_attr0_set env).size_with_stride,
      Event.copy_input (decide ((input_attr0_set env).dim 2 ≠ (input_attr0_set env).w_stride))])
      (by intro x hx; simp at hx; rcases hx with rfl | rfl <;> simp [Event.failed, Event.phase])
    have p9 := pre_append p8 (pre_map (k := 0)
      (fun i => Event.create_mem (env.rknn_create_mem (i + 1))
        ((push_back_loop (fun i => (env.query_output_attr i).2)
          (List.range env.n_output)).getD i zero_attr).size_with_stride)
      (List.range env.n_output)
      (fun i _ => ⟨by simp [Event.failed], by simp [Event.phase]⟩))
    by_cases h9 : env.set_io_mem_input < 0
    · simp only [main, if_neg h1, if_neg h2, if_neg (not_not.2 h3), if_neg (not_not.2 h4), e1, e2, if_neg (not_not.2 h7), himg2, if_pos h9, if_true, if_false, ne_eq,
        not_false_eq_true, not_true_eq_false, Bool.false_eq_true, true_and]
      exact (aborted_snoc p9 (by simpa [Event.failed] using h9) (by simp [Event.phase]))
    have p10 := pre_snoc p9 (e := Event.set_io_mem_input (env.rknn_create_mem 0)
      env.set_io_mem_input) (by simpa [Event.failed] using h9) rfl
    by_cases h10 : ∀ i, i < env.n_output → ¬ env.set_io_mem_output i < 0
    swap
    · have hb := checked_loop_bad (fun i => Event.set_io_mem_output
          ((push_back_loop (fun i => env.rknn_create_mem (i + 1))
            (List.range env.n_output)).getD i 0) i (env.set_io_mem_output i))
        (fun i => decide (env.set_io_mem_output i < 0)) (List.range env.n_output) 0
        (fun i => by simp [Event.failed]) (fun i => rfl) (by omega)
        (by
          push_neg at h10
          rcases h10 with ⟨i, hi, hlt⟩
          exact ⟨i, List.mem_range.2 hi, by simpa using hlt⟩)
      simp only [main, if_neg h1, if_neg h2, if_neg (not_not.2 h3), if_neg (not_not.2 h4), e1, e2, if_neg (not_not.2 h7), himg2, if_neg h9, hb.1, if_true, if_false, ne_eq,
        not_false_eq_true, not_true_eq_false, Bool.false_eq_true, true_and]
      exact (aborted_append p10 hb.2)
    have e4 := checked_loop_good (fun i => Event.set_io_mem_output
        ((push_back_loop (fun i => env.rknn_create_mem (i + 1))
          (List.range env.n_output)).getD i 0) i (env.set_io_mem_output i))
      (fun i => decide (env.set_io_mem_output i < 0)) (List.range env.n_output)
      (fun i hi => by simpa using h10 i (List.mem_range.1 hi))
    have p11 := pre_append p10 (pre_map (k := 0) (fun i => Event.set_io_mem_output
        ((push_back_loop (fun i => env.rknn_create_mem (i + 1))
          (List.range env.n_output)).getD i 0) i (env.set_io_mem_output i))
      (List.range env.n_output)
      (fun i hi => ⟨by simpa [Event.failed] using h10 i (List.mem_range.1 hi),
        by simp [Event.phase]⟩))
    by_cases h11 : ∀ i : Nat, (i : Int) < loop_count argv → ¬ env.rknn_run i < 0
    swap
    · have hb := checked_loop_bad (fun i => Event.rknn_run i (env.rknn_run i))
        (fun i => decide (env.rknn_run i < 0)) (List.range (loop_count argv).toNat) 1
        (fun i => by simp [Event.failed]) (fun i => rfl) (by omega)
        (by
          push_neg at h11
          rcases h11 with ⟨i, hi, hlt⟩
          exact ⟨i, List.mem_range.2 (by omega), by simpa using hlt⟩)
      simp only [main, if_neg h1, if_neg h2, if_neg (not_not.2 h3), if_neg (not_not.2 h4), e1, e2, if_neg (not_not.2 h7), himg2, if_neg h9, e4, hb.1, if_true, if_false,
        ne_eq, not_false_eq_true, not_true_eq_false, Bool.false_eq_true, true_and]
      exact (aborted_append p11 hb.2)
    exact absurd ⟨h1, h2, h3, h4, h5, h6, h7, by rw [himg]; simp, h9, h10, h11⟩ h

theorem post_process_call_of_pre {k : Nat} (hk : k ≤ 1) {tr : List Event} (h : Pre k tr) :
    post_process_call tr = none := by
  unfold post_process_call
  rw [List.findSome?_eq_none_iff]
  intro x hx
  have hp := (h x hx).2
  cases x <;> simp [Event.post_args, Event.phase] at hp ⊢
  omega

theorem report_lines_of_pre {k : Nat} (hk : k ≤ 1) {tr : List Event} (h : Pre k tr) :
    report_lines tr = [] := by
  unfold report_lines
  rw [List.filterMap_eq_nil_iff]
  intro x hx
  have hp := (h x hx).2
  cases x <;> simp [Event.line, Event.phase] at hp ⊢
  omega

theorem pre_of_aborted {tr : List Event} (h : Aborted tr) :
    ∀ x ∈ tr, x.phase ≤ 1 := by
  rcases h with ⟨pre, e, rfl, _, hp, hpre⟩
  intro x hx
  rcases List.mem_append.1 hx with h1 | h1
  · exact le_trans (hpre x h1).2 hp
  · have : x = e := by simpa using h1
    rw [this]; exact hp

theorem post_process_call_of_aborted {tr : List Event} (h : Aborted tr) :
    post_process_call tr = none := by
  unfold post_process_call
  rw [List.findSome?_eq_none_iff]
  intro x hx
  have hp := pre_of_aborted h x hx
  cases x <;> simp [Event.post_args, Event.phase] at hp ⊢

theorem steps_before_post_pre (env : Env) (argv : List String) (h : no_failure env argv) :
    Pre 1 (steps_before_post env argv) := by
  obtain ⟨h1, h2, h3, h4, h5, h6, h7, h8, h9, h10, h11⟩ := h
  intro x hx
  simp only [steps_before_post, List.mem_append, List.mem_cons, List.mem_map, List.mem_range,
    List.mem_singleton, List.not_mem_nil, or_false] at hx
  rcases hx with ((((((((rfl | rfl | rfl | rfl) | ⟨i, hi, rfl⟩) | ⟨i, hi, rfl⟩) |
    (rfl | rfl | rfl | rfl)) | ⟨i, hi, rfl⟩) | rfl) | ⟨i, hi, rfl⟩) | ⟨i, hi, rfl⟩)
  all_goals simp only [Event.failed, Event.phase, decide_eq_false_iff_not, Bool.not_true,
    Nat.zero_le, Nat.le_refl, and_true, not_not, ne_eq]
  · exact h1
  · exact h2
  · exact h3
  · exact h4
  · exact h5 i hi
  · exact h6 i hi
  · exact h7
  · exact h9
  · exact h10 i hi
  · exact h11 i (by omega)

theorem post_process_call_main_post (env : Env) (tr : List Event) (a : rknn_tensor_attr)
    (img : LoadedImage) (outs : List rknn_tensor_attr) (m : Nat) (ms : List Nat)
    (h : post_process_call tr = none) :
    post_process_call (post_trace env tr a img outs m ms)
      = some (post_args env a img outs ms) := by
  unfold post_process_call at h ⊢
  simp only [post_trace, List.append_assoc, List.findSome?_append, h, Option.none_or,
    List.singleton_append, List.findSome?_cons, Event.post_args]
  rfl

theorem report_lines_main_post (env : Env) (tr : List Event) (a : rknn_tensor_attr)
    (img : LoadedImage) (outs : List rknn_tensor_attr) (m : Nat) (ms : List Nat)
    (h : report_lines tr = []) :
    report_lines (post_trace env tr a img outs m ms)
      = (List.range (env.post_process (post_args env a img outs ms)).2.count.toNat).map
          (fun i => (report_body ((env.post_process (post_args env a img outs ms)).2.results i)).2) := by
  unfold report_lines at h ⊢
  simp only [post_trace, List.filterMap_append, h, report_loop_fst, List.filterMap_map,
    List.nil_append]
  have e1 : ∀ (f : Nat → ReportLine) (l : List Nat),
      List.filterMap (fun x => some (f x)) l = List.map f l := by
    intro f l
    induction l with
    | nil => rfl
    | cons a t ih => simp [List.filterMap_cons, ih]
  have e2 : ∀ (l : List Nat), List.filterMap (fun _ => (none : Option ReportLine)) l = [] := by
    intro l
    induction l with
    | nil => rfl
    | cons a t ih => simp [List.filterMap_cons, ih]
  simp [Event.line, Function.comp_def, e1, e2]

/-- When `main` reaches post-processing no failure occurred, the image was
loaded, and the call is made after the set-up and inference steps with the
arguments computed by `post_args`. -/
theorem main_reaches_post (env : Env) (argv : List String) (args : PostArgs)
    (h : post_process_call (main env argv).trace = some args) :
    no_failure env argv ∧
    ∃ img, load_image env.files env.malloc_ok env.resize_ok (argv.getD 2 "") (input_attr0 env)
        = some img ∧
      args = post_args env (input_attr0_set env) img
        ((List.range env.n_output).map (fun i => (env.query_output_attr i).2))
        ((List.range env.n_output).map (fun i => env.rknn_create_mem (i + 1))) ∧
      (main env argv).trace = post_trace env (steps_before_post env argv) (input_attr0_set env)
        img ((List.range env.n_output).map (fun i => (env.query_output_attr i).2))
        (env.rknn_create_mem 0)
        ((List.range env.n_output).map (fun i => env.rknn_create_mem (i + 1))) := by
  by_cases hn : no_failure env argv
  · obtain ⟨img, himg, hm, _⟩ := main_of_no_failure env argv hn
    refine ⟨hn, img, himg, ?_, hm⟩
    rw [hm, post_process_call_main_post _ _ _ _ _ _ _
      (post_process_call_of_pre (le_refl 1) (steps_before_post_pre env argv hn))] at h
    exact (Option.some.inj h).symm
  · have := post_process_call_of_aborted (main_of_failure env argv hn).2
    rw [this] at h
    exact absurd h (by simp)


theorem load_image_out_params (files : String → Option ImageFile) (malloc_ok resize_ok : Bool)
    (path : String) (attr : rknn_tensor_attr) (img : LoadedImage)
    (h : load_image files malloc_ok resize_ok path attr = some img) :
    ∃ f, files path = some f ∧ img.img_width = f.x ∧ img.img_height = f.y := by
  unfold load_image at h
  cases hr : required_size attr with
  | none => simp [hr] at h
  | some req =>
    obtain ⟨rh, rw, rc⟩ := req
    cases hf : files path with
    | none => simp [hr, stbi_load, hf] at h
    | some f =>
      refine ⟨f, rfl, ?_⟩
      simp only [hr, stbi_load, hf] at h
      split_ifs at h <;> (cases h; exact ⟨rfl, rfl⟩)

theorem copy_rows_below (src : Memory) (S D : Nat) :
    ∀ (n sp dp : Nat) (mem : Memory) (k : Nat), k < dp →
      (copy_rows src S D n (sp, dp, mem)).2.2 k = mem k := by
  intro n
  induction n with
  | zero => intro sp dp mem k _; rfl
  | succ n ih =>
    intro sp dp mem k hk
    show (copy_rows src S D n (sp + S, dp + D, memcpy mem dp src sp S)).2.2 k = mem k
    rw [ih _ _ _ k (by omega)]
    simp only [memcpy]
    rw [if_neg (by omega)]

theorem copy_rows_row (src : Memory) (S D : Nat) (hSD : S ≤ D) :
    ∀ (n sp dp : Nat) (mem : Memory) (h j : Nat), h < n → j < S →
      (copy_rows src S D n (sp, dp, mem)).2.2 (dp + h * D + j) = src (sp + h * S + j) := by
  intro n
  induction n with
  | zero => intro sp dp mem h j hh _; omega
  | succ n ih =>
    intro sp dp mem h j hh hj
    show (copy_rows src S D n (sp + S, dp + D, memcpy mem dp src sp S)).2.2 (dp + h * D + j) = _
    cases h with
    | zero =>
      rw [copy_rows_below src S D n _ _ _ _ (by omega)]
      simp only [memcpy]
      rw [if_pos (by omega)]
      congr 1
      omega
    | succ h' =>
      have e1 : dp + (h' + 1) * D + j = (dp + D) + h' * D + j := by rw [Nat.succ_mul]; omega
      have e2 : sp + (h' + 1) * S + j = (sp + S) + h' * S + j := by rw [Nat.succ_mul]; omega
      rw [e1, e2]
      exact ih _ _ _ h' j (by omega) hj

theorem copy_rows_padding (src : Memory) (S D : Nat) :
    ∀ (n sp dp : Nat) (mem : Memory) (h j : Nat), h < n → S ≤ j → j < D →
      (copy_rows src S D n (sp, dp, mem)).2.2 (dp + h * D + j) = mem (dp + h * D + j) := by
  intro n
  induction n with
  | zero => intro sp dp mem h j hh _ _; omega
  | succ n ih =>
    intro sp dp mem h j hh hj1 hj2
    show (copy_rows src S D n (sp + S, dp + D, memcpy mem dp src sp S)).2.2 (dp + h * D + j) = _
    cases h with
    | zero =>
      rw [copy_rows_below src S D n _ _ _ _ (by omega)]
      simp only [memcpy]
      rw [if_neg (by omega)]
    | succ h' =>
      have e1 : dp + (h' + 1) * D + j = (dp + D) + h' * D + j := by rw [Nat.succ_mul]; omega
      rw [e1, ih _ _ _ h' j (by omega) hj1 hj2]
      simp only [memcpy]
      rw [if_neg (by omega)]

theorem copy_rows_flat (src : Memory) (S : Nat) :
    ∀ (n sp dp : Nat) (mem : Memory),
      (copy_rows src S S n (sp, dp, mem)).2.2 = memcpy mem dp src sp (n * S) := by
  intro n
  induction n with
  | zero =>
    intro sp dp mem
    funext k
    show mem k = memcpy mem dp src sp (0 * S) k
    simp only [memcpy]
    rw [if_neg (by omega)]
  | succ n ih =>
    intro sp dp mem
    show (copy_rows src S S n (sp + S, dp + S, memcpy mem dp src sp S)).2.2 = _
    rw [ih]
    funext k
    have e : (n + 1) * S = n * S + S := Nat.succ_mul n S
    simp only [memcpy, e]
    by_cases h1 : dp + S ≤ k ∧ k < dp + S + n * S
    · rw [if_pos h1, if_pos (by omega)]
      congr 1
      omega
    · rw [if_neg h1]
      by_cases h2 : dp ≤ k ∧ k < dp + S
      · rw [if_pos h2, if_pos (by omega)]
      · rw [if_neg h2, if_neg (by omega)]

theorem copy_input_data_eq_strided (attr : rknn_tensor_attr) (src dst : Memory) :
    copy_input_data attr src dst
      = strided_copy (attr.dim 2) attr.w_stride (attr.dim 1) (attr.dim 3) src dst := by
  unfold copy_input_data
  by_cases h : attr.dim 2 = attr.w_stride
  · simp only [if_pos h]
    rw [← h]
    unfold strided_copy flat_copy
    simp only [copy_rows_flat]
    rw [show attr.dim 1 * (attr.dim 2 * attr.dim 3) = attr.dim 2 * attr.dim 1 * attr.dim 3 by ring]
  · simp only [if_neg h]

/-- C1 (the code departs from the claim). For the 480x640 model (height 480,
width 640, as `load_image` requires them) and the 1280x960 image, `main`
passes the width scale 480/1280 and the height scale 640/960 to
`post_process`, not 640/1280 and 480/960: it divides the tensor's height by
the image width and the tensor's width by the image height. -/
theorem scale_factors_use_swapped_model_dims :
    ∃ args, post_process_call (main wide_env demo_argv).trace = some args ∧
      required_size (input_attr0 wide_env) = some (480, 640, 3) ∧
      load_image wide_env.files wide_env.malloc_ok wide_env.resize_ok "bus.jpg"
        (input_attr0 wide_env) = some ⟨⟨640 * 480 * 3, 640, 480, 3⟩, 960, 1280⟩ ∧
      args.scale_w = 480 / 1280 ∧ args.scale_h = 640 / 960 ∧
      args.scale_w ≠ 640 / 1280 ∧ args.scale_h ≠ 480 / 960 := by
  refine ⟨_, rfl, by decide, by decide, ?_, ?_, ?_, ?_⟩
  · show ((480 : ℕ) : ℚ) / ((1280 : ℕ) : ℚ) = 480 / 1280
    norm_num
  · show ((640 : ℕ) : ℚ) / ((960 : ℕ) : ℚ) = 640 / 960
    norm_num
  · show ((480 : ℕ) : ℚ) / ((1280 : ℕ) : ℚ) ≠ 640 / 1280
    norm_num
  · show ((640 : ℕ) : ℚ) / ((960 : ℕ) : ℚ) ≠ 480 / 960
    norm_num

/-- C2 (the code departs from the claim). In the execution where
`post_process` returns the status -1, `main` still prints the two report
lines and returns 0: the status is discarded. -/
theorem post_process_failure_is_ignored :
    post_process_status (main failing_post_env demo_argv).trace = some (-1) ∧
    (report_lines (main failing_post_env demo_argv).trace).length = 2 ∧
    (main failing_post_env demo_argv).ret = 0 := by decide

/-- C3 (the code departs from the claim). With the fourth argument "0",
"-3" or "abc" the variable `loop_count` is not positive, `main` invokes
`post_process` and returns 0, and no `rknn_run` call was made. -/
theorem post_process_without_inference :
    loop_count (demo_argv_loop "0") = 0 ∧
    (main demo_env (demo_argv_loop "0")).trace.any Event.is_post_process = true ∧
    (main demo_env (demo_argv_loop "0")).trace.any Event.is_successful_run = false ∧
    (main demo_env (demo_argv_loop "0")).trace.all (fun e => decide (e.phase ≠ 1)) = true ∧
    (main demo_env (demo_argv_loop "0")).ret = 0 ∧
    loop_count (demo_argv_loop "-3") = -3 ∧
    (main demo_env (demo_argv_loop "-3")).trace.any Event.is_post_process = true ∧
    (main demo_env (demo_argv_loop "-3")).trace.all (fun e => decide (e.phase ≠ 1)) = true ∧
    loop_count (demo_argv_loop "abc") = 0 ∧
    (main demo_env (demo_argv_loop "abc")).trace.any Event.is_post_process = true ∧
    (main demo_env (demo_argv_loop "abc")).trace.all (fun e => decide (e.phase ≠ 1)) = true := by
  decide

/-- C4 (the code departs from the claim). For a 1280x960 four-channel file
and the 640x640x3 input tensor, `load_image` returns a block of
640 * 640 * 3 bytes into which the resizer stored 640 * 640 * 4 bytes in a
four-channel layout, after reading 1280 * 960 * 4 bytes from the decoded
block of 1280 * 960 * 3 bytes. -/
theorem load_image_resizes_with_file_channels :
    required_size demo_input_attr = some (640, 640, 3) ∧
    stbi_load rgba_files "bus.png" 3 = some (⟨1280 * 960 * 3, 1280, 960, 3⟩, 1280, 960, 4) ∧
    load_image rgba_files true true "bus.png" demo_input_attr
      = some ⟨⟨640 * 640 * 3, 640, 640, 4⟩, 960, 1280⟩ ∧
    (⟨640 * 640 * 3, 640, 640, 4⟩ : PixelBuffer).stored = 640 * 640 * 4 ∧
    (⟨640 * 640 * 3, 640, 640, 4⟩ : PixelBuffer).capacity < 640 * 640 * 4 ∧
    1280 * 960 * 3 < stbir_bytes_read 1280 960 4 := by decide

/-- C5. After every successful `load_image` call the out-parameters
`img_width` and `img_height` are the width and height of the decoded file,
whether or not the image was resized, and when `main` reaches
post-processing the scale factors it passes are `model_width` and
`model_height` divided by exactly these two values. -/
theorem image_dims_are_original (env : Env) (argv : List String) :
    (∀ path attr img, load_image env.files env.malloc_ok env.resize_ok path attr = some img →
      ∃ f, env.files path = some f ∧ img.img_width = f.x ∧ img.img_height = f.y) ∧
    (∀ args, post_process_call (main env argv).trace = some args →
      ∃ f, env.files (argv.getD 2 "") = some f ∧
        args.scale_w = ((model_size (input_attr0_set env)).1 : ℚ) / (f.x : ℚ) ∧
        args.scale_h = ((model_size (input_attr0_set env)).2 : ℚ) / (f.y : ℚ)) := by
  refine ⟨fun path attr img h => load_image_out_params _ _ _ _ _ _ h, ?_⟩
  intro args h
  obtain ⟨_, img, himg, hargs, _⟩ := main_reaches_post env argv args h
  obtain ⟨f, hf, hw, hh⟩ := load_image_out_params _ _ _ _ _ _ himg
  refine ⟨f, hf, ?_, ?_⟩
  · rw [hargs, ← hw]; rfl
  · rw [hargs, ← hh]; rfl

theorem image_dims_are_original_witness :
    load_image demo_env.files demo_env.malloc_ok demo_env.resize_ok "bus.jpg" demo_input_attr
      = some ⟨⟨640 * 640 * 3, 640, 640, 3⟩, 960, 1280⟩ ∧
    load_image same_size_env.files same_size_env.malloc_ok same_size_env.resize_ok "bus.jpg"
      demo_input_attr = some ⟨⟨640 * 640 * 3, 640, 640, 3⟩, 640, 640⟩ ∧
    (∃ f, demo_env.files "bus.jpg" = some f ∧ (1280 : ℕ) = f.x ∧ (960 : ℕ) = f.y) ∧
    (∃ args, post_process_call (main demo_env demo_argv).trace = some args ∧
      ∃ f, demo_env.files (demo_argv.getD 2 "") = some f ∧
        args.scale_w = ((model_size (input_attr0_set demo_env)).1 : ℚ) / (f.x : ℚ) ∧
        args.scale_h = ((model_size (input_attr0_set demo_env)).2 : ℚ) / (f.y : ℚ)) :=
  ⟨by decide, by decide,
    (image_dims_are_original demo_env demo_argv).1 "bus.jpg" demo_input_attr
      ⟨⟨640 * 640 * 3, 640, 640, 3⟩, 960, 1280⟩ (by decide),
    ⟨_, rfl, (image_dims_are_original demo_env demo_argv).2 _ rfl⟩⟩

/-- C6. When `main` invokes `post_process`, the scale list and the
zero-point list both have `n_output` elements, their `i`-th elements are the
scale and zero-point that the query of output tensor `i` returned, and (for
a model with at least three outputs) the `k`-th buffer passed is the memory
that `rknn_set_io_mem` bound to output tensor `k`, for `k` = 0, 1, 2. -/
theorem post_process_quant_params (env : Env) (argv : List String) (args : PostArgs)
    (h : post_process_call (main env argv).trace = some args) :
    args.qnt_scales.length = env.n_output ∧ args.qnt_zps.length = env.n_output ∧
    (∀ i, i < env.n_output →
      args.qnt_scales[i]? = some (env.query_output_attr i).2.scale ∧
      args.qnt_zps[i]? = some (env.query_output_attr i).2.zp) ∧
    (3 ≤ env.n_output →
      Event.set_io_mem_output args.input0 0 (env.set_io_mem_output 0) ∈ (main env argv).trace ∧
      Event.set_io_mem_output args.input1 1 (env.set_io_mem_output 1) ∈ (main env argv).trace ∧
      Event.set_io_mem_output args.input2 2 (env.set_io_mem_output 2) ∈ (main env argv).trace) := by
  obtain ⟨_, img, _, hargs, hm⟩ := main_reaches_post env argv args h
  subst hargs
  have hs : ∀ i, i < env.n_output →
      (List.map (fun i => (env.query_output_attr i).2) (List.range env.n_output)).getD i zero_attr
        = (env.query_output_attr i).2 := fun i hi => getD_map_range _ _ _ _ hi
  refine ⟨by simp [post_args, push_back_loop_eq_map], by simp [post_args, push_back_loop_eq_map],
    ?_, ?_⟩
  · intro i hi
    simp only [post_args, push_back_loop_eq_map]
    constructor
    · rw [List.getElem?_map, List.getElem?_range hi]; simp only [Option.map_some']; rw [hs i hi]
    · rw [List.getElem?_map, List.getElem?_range hi]; simp only [Option.map_some']; rw [hs i hi]
  · intro h3
    have hmem : ∀ k, k < env.n_output →
        Event.set_io_mem_output (env.rknn_create_mem (k + 1)) k (env.set_io_mem_output k)
          ∈ (main env argv).trace := by
      intro k hk
      rw [hm]
      have hin : Event.set_io_mem_output (env.rknn_create_mem (k + 1)) k (env.set_io_mem_output k)
          ∈ steps_before_post env argv := by
        simp only [steps_before_post, List.mem_append, List.mem_map, List.mem_range]
        exact Or.inl (Or.inr ⟨k, hk, rfl⟩)
      simp only [post_trace, List.mem_append]
      exact Or.inl (Or.inl (Or.inl (Or.inl (Or.inl hin))))
    have hg : ∀ k, k < env.n_output →
        (List.map (fun i => env.rknn_create_mem (i + 1)) (List.range env.n_output)).getD k 0
          = env.rknn_create_mem (k + 1) := fun k hk => getD_map_range _ _ _ _ hk
    simp only [post_args]
    rw [hg 0 (by omega), hg 1 (by omega), hg 2 (by omega)]
    exact ⟨hmem 0 (by omega), hmem 1 (by omega), hmem 2 (by omega)⟩

theorem post_process_quant_params_witness :
    ∃ args, post_process_call (main demo_env demo_argv).trace = some args ∧
      (args.qnt_scales.length = demo_env.n_output ∧ args.qnt_zps.length = demo_env.n_output ∧
      (∀ i, i < demo_env.n_output →
        args.qnt_scales[i]? = some (demo_env.query_output_attr i).2.scale ∧
        args.qnt_zps[i]? = some (demo_env.query_output_attr i).2.zp) ∧
      (3 ≤ demo_env.n_output →
        Event.set_io_mem_output args.input0 0 (demo_env.set_io_mem_output 0)
          ∈ (main demo_env demo_argv).trace ∧
        Event.set_io_mem_output args.input1 1 (demo_env.set_io_mem_output 1)
          ∈ (main demo_env demo_argv).trace ∧
        Event.set_io_mem_output args.input2 2 (demo_env.set_io_mem_output 2)
          ∈ (main demo_env demo_argv).trace)) :=
  ⟨_, rfl, post_process_quant_params demo_env demo_argv _ rfl⟩

/-- C7 (the code departs from the claim). For the 320x320 model `main`
invokes `post_process` with the model height and width 640 and 640, while
the input tensor it queried, and the `model_width` and `model_height` it
computed for the scale factors, are 320. -/
theorem post_process_gets_constant_model_size :
    required_size (input_attr0 small_env) = some (320, 320, 3) ∧
    model_size (input_attr0_set small_env) = (320, 320) ∧
    (post_process_call (main small_env demo_argv).trace).map
      (fun a => (a.model_in_h, a.model_in_w)) = some (640, 640) := by decide

/-- C8 (the code departs from the claim). In the demo execution the first
report line carries the confidence 1/2, the value of `prop`; the percentage
50 that the claim requires is formatted into the scratch text of the same
loop iteration and is not part of the line. -/
theorem report_line_drops_percentage :
    ∃ l, (report_lines (main demo_env demo_argv).trace)[0]? = some l ∧
      l = (report_body (demo_group.results 0)).2 ∧
      l.name = "person" ∧ l.left = 10 ∧ l.top = 20 ∧ l.right = 30 ∧ l.bottom = 40 ∧
      l.confidence = 1 / 2 ∧
      (report_body (demo_group.results 0)).1.percent = 50 ∧
      l.confidence ≠ 50 := by
  refine ⟨_, rfl, rfl, rfl, rfl, rfl, rfl, rfl, rfl, ?_, ?_⟩
  · show (1 / 2 : ℚ) * 100 = 50
    norm_num
  · show (1 / 2 : ℚ) ≠ 50
    norm_num

/-- The report of an execution that reaches post-processing: one line per
result of the group, in order, each with the name, the coordinates and the
value `prop` of its result. -/
theorem report_lines_of_main (env : Env) (argv : List String) (args : PostArgs)
    (h : post_process_call (main env argv).trace = some args) :
    report_lines (main env argv).trace
      = (List.range (env.post_process args).2.count.toNat).map (fun i =>
          (⟨((env.post_process args).2.results i).name,
            ((env.post_process args).2.results i).box.left,
            ((env.post_process args).2.results i).box.top,
            ((env.post_process args).2.results i).box.right,
            ((env.post_process args).2.results i).box.bottom,
            ((env.post_process args).2.results i).prop⟩ : ReportLine)) := by
  obtain ⟨hn, img, _, hargs, hm⟩ := main_reaches_post env argv args h
  subst hargs
  rw [hm, report_lines_main_post _ _ _ _ _ _ _
    (report_lines_of_pre (le_refl 1) (steps_before_post_pre env argv hn))]
  rfl

/-- C10. For `stride ≥ width` the row-by-row copy stores every source
row at its strided position, leaves the padding bytes of each row unchanged,
and for `stride = width` gives the same memory as the single flat copy of
`width * height * channel` bytes. -/
theorem strided_copy_places_rows (width stride height channel : Nat) (src dst : Memory)
    (hs : width ≤ stride) :
    (∀ h j, h < height → j < width * channel →
      strided_copy width stride height channel src dst (h * stride * channel + j)
        = src (h * width * channel + j)) ∧
    (∀ h j, h < height → width * channel ≤ j → j < stride * channel →
      strided_copy width stride height channel src dst (h * stride * channel + j)
        = dst (h * stride * channel + j)) ∧
    strided_copy width width height channel src dst = flat_copy width height channel src dst := by
  have hSD : width * channel ≤ stride * channel := Nat.mul_le_mul_right _ hs
  refine ⟨?_, ?_, ?_⟩
  · intro h j hh hj
    have := copy_rows_row src (width * channel) (stride * channel) hSD height 0 0 dst h j hh hj
    simpa [strided_copy, Nat.mul_assoc] using this
  · intro h j hh hj1 hj2
    have := copy_rows_padding src (width * channel) (stride * channel) height 0 0 dst h j hh
      hj1 hj2
    simpa [strided_copy, Nat.mul_assoc] using this
  · unfold strided_copy flat_copy
    simp only [copy_rows_flat]
    rw [show height * (width * channel) = width * height * channel by ring]

theorem strided_copy_places_rows_witness :
    (2 ≤ 3) ∧
    (List.range 6).map (strided_copy 2 3 2 1 (fun k => k + 10) (fun _ => 0)) = [10, 11, 0, 12, 13, 0] ∧
    ((∀ h j, h < 2 → j < 2 * 1 →
      strided_copy 2 3 2 1 (fun k => k + 10) (fun _ => 0) (h * 3 * 1 + j)
        = (fun k => k + 10) (h * 2 * 1 + j)) ∧
    (∀ h j, h < 2 → 2 * 1 ≤ j → j < 3 * 1 →
      strided_copy 2 3 2 1 (fun k => k + 10) (fun _ => 0) (h * 3 * 1 + j)
        = (fun _ => 0) (h * 3 * 1 + j)) ∧
    strided_copy 2 2 2 1 (fun k => k + 10) (fun _ => 0)
      = flat_copy 2 2 1 (fun k => k + 10) (fun _ => 0)) :=
  ⟨by decide, by decide, strided_copy_places_rows 2 3 2 1 (fun k => k + 10) (fun _ => 0) (by decide)⟩

end Yolov5Demo
